import Mathlib

/-!
Shallow embedding of the iLEAPP audio aggregation pipeline
(`scripts/artifacts/allUserAudio.py`) and of the cross-run aggregation
engine (`scripts/aggregation_engine.py`), together with theorems about
the classification, deduplication, database-context correlation and
record-synthesis behaviour of that code.

Modelling conventions:
* Python strings are Lean `String`; Python truthiness of a string is
  `truthy` (non-empty).
* File system input and SQLite input are embedded as data carried by a
  `FoundFile` value: the SHA-256 digest a file hashes to (empty on a
  read error), whether the file exists on disk, which SQLite tables the
  file has, and what rows a SQL query over it returns.  An exception
  raised while querying is the `QueryOutcome.err` value; the Python
  try/except blocks of the source are translated into the corresponding
  `match` arms.
* Numeric SQLite cells are modelled as integers; the source renders
  some of them with two-decimal float formatting, which is rendered
  integrally here (no claim depends on that rendering).
-/

/-- Does the first list start with the second one (character lists). -/
def charListStartsWith : List Char → List Char → Bool
  | _, [] => true
  | [], _ :: _ => false
  | a :: s, b :: t => a == b && charListStartsWith s t

/-- Does the pattern occur as a contiguous run inside the list. -/
def charListContains : List Char → List Char → Bool
  | [], t => t.isEmpty
  | a :: s, t => charListStartsWith (a :: s) t || charListContains s t

/-- Python `sub in s` substring test. -/
def strContains (s sub : String) : Bool :=
  charListContains s.toList sub.toList

/-- Python `s.endswith(suf)`. -/
def strEndsWith (s suf : String) : Bool :=
  charListStartsWith s.toList.reverse suf.toList.reverse

/-- Python truthiness of a string: non-empty. -/
def truthy (s : String) : Bool := !(s == "")

/-- Python `s.lower()` character-wise (ASCII case folding, which covers
every string this artifact handles). -/
def strLower (s : String) : String := String.mk (s.toList.map Char.toLower)

/-- Split at a separator character, Python `s.split(sep)` for a one
character separator. -/
def splitListOnChar (c : Char) : List Char → List (List Char)
  | [] => [[]]
  | a :: s =>
    let r := splitListOnChar c s
    if a == c then [] :: r
    else
      match r with
      | [] => [[a]]
      | x :: xs => (a :: x) :: xs

/-- Python `s.split("/")`. -/
def splitSlash (s : String) : List String :=
  (splitListOnChar '/' s.toList).map String.mk

/-- Python `s.split(sep)[0]` for a one character separator: the part
before the first occurrence. -/
def headBefore (s : String) (sep : Char) : String :=
  String.mk (s.toList.takeWhile (fun c => !(c == sep)))

/-- Replace every occurrence of a non-empty pattern, scanning left to
right, Python `s.replace(pat, rep)`.  The first argument counts the
characters of an already-matched pattern occurrence still to be skipped
before scanning resumes. -/
def replaceSkip (pat rep : List Char) : Nat → List Char → List Char
  | _, [] => []
  | 0, a :: s2 =>
    if charListStartsWith (a :: s2) pat && !pat.isEmpty then
      rep ++ replaceSkip pat rep (pat.length - 1) s2
    else a :: replaceSkip pat rep 0 s2
  | k + 1, _ :: s2 => replaceSkip pat rep k s2

/-- Python `s.replace(pat, rep)` for a non-empty pattern. -/
def strReplace (s pat rep : String) : String :=
  String.mk (replaceSkip pat.toList rep.toList 0 s.toList)

/-- Try a matcher on every suffix of the string, used by the star case
of the glob matcher. -/
def tryAllSuffixes (rest : List Char → Bool) : List Char → Bool
  | [] => rest []
  | a :: s2 => rest (a :: s2) || tryAllSuffixes rest s2

/-- Shell-style glob match as used by `fnmatch.fnmatch` on the patterns of
this artifact: a star matches any run of characters (including the path
separator), every other character matches itself.  The patterns appearing
in `AUDIO_CATEGORIES` use no other metacharacter. -/
def globMatch : List Char → List Char → Bool
  | [] => fun s => s.isEmpty
  | c :: p2 =>
    fun s =>
      if c == '*' then tryAllSuffixes (globMatch p2) s
      else
        match s with
        | [] => false
        | a :: s2 => (a == c) && globMatch p2 s2

/-- Python `os.path.basename` (POSIX): the part after the last slash. -/
def basename (s : String) : String :=
  String.mk ((s.toList.reverse.takeWhile (fun c => !(c == '/'))).reverse)

/-- Python `os.path.splitext(s)[0]`: drop the extension introduced by the
last dot, unless every character before that dot is itself a dot. -/
def splitextBase (s : String) : String :=
  match s.toList.reverse.findIdx? (fun c => c == '.') with
  | none => s
  | some k =>
    let i := s.toList.length - 1 - k
    if (s.toList.take i).all (fun c => c == '.') then s
    else String.mk (s.toList.take i)

/-- First 100 characters, Python slice `s[:100]`. -/
def strTake (s : String) (n : Nat) : String :=
  String.mk (s.toList.take n)

/-- Audio extension constants of the source module. -/
def SUPPORTED_AUDIO_EXTENSIONS : List String :=
  [".m4a", ".mp3", ".wav", ".aac", ".amr", ".caf", ".ogg", ".opus"]

/-- One entry of the category rule table `AUDIO_CATEGORIES`. -/
structure CategoryInfo where
  name : String
  forensic_relevance : String
  score : Nat
  patterns : List String
deriving DecidableEq, Repr

/-- The `AUDIO_CATEGORIES` table of the source, as an ordered list of
(category id, category data) pairs; the list order is the Python dict
declaration order, which is also its iteration order. -/
def AUDIO_CATEGORIES : List (String × CategoryInfo) :=
  [ ("USER_CONTENT",
     { name := "User Content", forensic_relevance := "HIGH", score := 3,
       patterns :=
         [ "*/Library/Sounds/ringtone_*",
           "*/Containers/Data/Application/*/Documents/*.m4a",
           "*/Containers/Data/Application/*/Documents/*.caf",
           "*/Containers/Data/Application/*/Documents/*.wav",
           "*/Containers/Data/Application/*/Documents/*.mp3",
           "*/Documents/Recordings/*" ] }),
    ("COMMUNICATION_AUDIO",
     { name := "Communication Audio", forensic_relevance := "HIGH", score := 3,
       patterns :=
         [ "*/mobile/Library/Voicemail/*",
           "*/Message/Media/*",
           "*/mobile/Library/SMS/Attachments/*",
           "*/postbox/media/*",
           "*/Library/Application Support/Attachments/*" ] }),
    ("VOICE_COMMANDS",
     { name := "Voice Commands", forensic_relevance := "MEDIUM", score := 2,
       patterns := [ "*/Library/VoiceTrigger/*" ] }),
    ("SYSTEM_AUDIO",
     { name := "System Audio", forensic_relevance := "MEDIUM", score := 2,
       patterns := [ "*/Library/Sounds/*", "*/System/Library/Audio/*" ] }),
    ("APP_ASSETS",
     { name := "App Assets", forensic_relevance := "LOW", score := 1,
       patterns := [ "*/containers/Bundle/Application/*/*.app/*", "*/*.bundle/*" ] }) ]

/-- Source function `determine_functional_category(file_path, file_size,
audio_type)`; the size argument is accepted and, as in the source, never
read. -/
def determine_functional_category (file_path : String) (file_size : Nat)
    (audio_type : String) : String :=
  let file_path_lower := strLower file_path
  let filename := basename file_path_lower
  if audio_type == "USER_CONTENT" then
    if strContains filename "ringtone" then "Custom Ringtone"
    else if strContains file_path_lower "recordings"
        || strContains file_path_lower "voice memo"
        || strContains file_path_lower "voicememo" then "Voice Recording"
    else "User Audio"
  else if audio_type == "COMMUNICATION_AUDIO" then
    if strContains file_path_lower "voicemail" then "Voicemail"
    else if strContains file_path_lower "whatsapp"
        || strContains file_path_lower "message"
        || strContains file_path_lower "chat" then "Voice Message"
    else "Communication"
  else if audio_type == "VOICE_COMMANDS" then
    if strContains file_path_lower "siri"
        || strContains file_path_lower "voicetrigger" then "Siri Voice Trigger"
    else "Voice Command"
  else if audio_type == "SYSTEM_AUDIO" then
    if strContains filename "notification" || strContains filename "alert" then
      "Notification Sound"
    else if strContains filename "ringtone" then "System Ringtone"
    else "System Sound"
  else if audio_type == "APP_ASSETS" then
    if strContains filename "notification" || strContains filename "alert"
        || strContains filename "message" then "App Notification"
    else if strContains filename "ui" || strContains filename "button"
        || strContains filename "click" || strContains filename "beep" then
      "UI Sound Effect"
    else "App Audio Asset"
  else "Other"

/-- The pattern scan of `classify_audio_file`: walk the category table in
declaration order, inside each category walk the pattern list, and return
on the first pattern whose lowered text glob-matches the lowered path. -/
def classifyLoop (file_path_lower : String) (file_path : String)
    (file_size : Nat) :
    List (String × CategoryInfo) → Option (String × String × String × Nat)
  | [] => none
  | (category_id, info) :: rest =>
    if info.patterns.any (fun pat => globMatch (strLower pat).toList file_path_lower.toList) then
      some (info.name,
            determine_functional_category file_path file_size category_id,
            info.forensic_relevance, info.score)
    else classifyLoop file_path_lower file_path file_size rest

/-- Source function `classify_audio_file(file_path, file_size)`. -/
def classify_audio_file (file_path : String) (file_size : Nat) :
    String × String × String × Nat :=
  let file_path_lower := strLower file_path
  match classifyLoop file_path_lower file_path file_size AUDIO_CATEGORIES with
  | some r => r
  | none => ("Unknown Audio", "Unclassified", "MEDIUM", 2)

/-- Source function `get_custom_default_indicator(file_path, audio_type)`;
the membership tests against one-element lists of the source are equality
tests. -/
def get_custom_default_indicator (file_path : String) (audio_type : String) :
    String :=
  if audio_type == "USER_CONTENT" then "Custom"
  else if audio_type == "APP_ASSETS" then "Default"
  else
    if strContains (strLower file_path) "custom"
        || strContains (strLower file_path) "user" then "Custom"
    else if strContains (strLower file_path) "system"
        || strContains (strLower file_path) "default" then "Default"
    else "Unknown"

/-- Source function `extract_source_app(file_path)`. -/
def extract_source_app (file_path : String) : String :=
  let file_path_lower := strLower file_path
  if strContains file_path_lower "/library/voicemail/" then "System Voicemail"
  else if strContains file_path_lower "/library/voicetrigger/" then "Siri/Voice Triggers"
  else if strContains file_path_lower "/library/sms/" then "Messages (SMS/iMessage)"
  else if strContains file_path_lower "/library/sounds/" then "System Audio"
  else if strContains file_path_lower "whatsapp" then "WhatsApp"
  else if strContains file_path_lower "telegram" then "Telegram"
  else if strContains file_path_lower "signal" then "Signal"
  else if strContains file_path_lower "discord" then "Discord"
  else if strContains file_path_lower "voice" && strContains file_path_lower "memo" then
    "Voice Memos"
  else if strContains file_path_lower "/bundle/application/" then
    match (splitSlash file_path).find? (fun part => strEndsWith part ".app") with
    | some part => strReplace part ".app" ""
    | none => "Third-party App"
  else "Unknown"

/-- Two-decimal rendering of the ratio of two naturals, used by the size
formatter (the source divides floats and formats with two decimals). -/
def fmtDiv2 (n d : Nat) : String :=
  let h := n * 100 / d
  toString (h / 100) ++ "." ++ (if h % 100 < 10 then "0" else "") ++ toString (h % 100)

/-- Size formatting block of the processing loop. -/
def format_file_size (file_size : Nat) : String :=
  if file_size > 1048576 then fmtDiv2 file_size 1048576 ++ " MB"
  else if file_size > 1024 then fmtDiv2 file_size 1024 ++ " KB"
  else toString file_size ++ " bytes"

/-- Relative display path: the source keeps everything after the first
occurrence of the marker when present, else the whole path. -/
def afterSub : List Char → List Char → Option (List Char)
  | [], pat => if charListStartsWith [] pat then some [] else none
  | a :: cs2, pat =>
    if charListStartsWith (a :: cs2) pat then some ((a :: cs2).drop pat.length)
    else afterSub cs2 pat

/-- Relative path block of the processing loop. -/
def relativePathOf (file_path : String) : String :=
  match afterSub file_path.toList "/mobile/".toList with
  | some restChars => String.mk restChars
  | none => file_path

/-- Value stored in a SQLite cell of the model; the Python truthiness of
the fetched cell is `truthyV`. -/
inductive DBValue where
  | null
  | intVal (n : Int)
  | textVal (s : String)
deriving DecidableEq, Repr

/-- Python truthiness of a fetched cell (None, 0 and the empty string are
falsy). -/
def truthyV (v : DBValue) : Bool :=
  match v with
  | DBValue.null => false
  | DBValue.intVal n => !(n == 0)
  | DBValue.textVal s => !(s == "")

/-- Python str() rendering of a fetched cell as interpolated by the
f-strings of the source. -/
def dbValueText (v : DBValue) : String :=
  match v with
  | DBValue.null => "None"
  | DBValue.intVal n => toString n
  | DBValue.textVal s => s

/-- Two-decimal rendering of a numeric cell (source formats floats with
two decimals; integer cells of the model are rendered with .00). -/
def fmt2f (v : DBValue) : String :=
  match v with
  | DBValue.intVal n => toString n ++ ".00"
  | DBValue.textVal s => s
  | DBValue.null => "None"

/-- Result of running one SQL query against one database file of the
model: either the raised-exception outcome or a list of rows. -/
inductive QueryOutcome where
  | err
  | ok (rows : List (List DBValue))
deriving Repr

/-- Modelled from the spec: the epoch conversion collaborator
`convert_cocoa_core_data_ts_to_utc` of `scripts/ilapfuncs.py` (not under
src/) produces a canonical UTC timestamp string for a Cocoa epoch value;
its rendering is kept abstract as a tagged string and is never empty. -/
def convert_cocoa_core_data_ts_to_utc (v : DBValue) : String :=
  "cocoa-utc:" ++ dbValueText v

/-- Modelled from the spec: the epoch conversion collaborator
`convert_unix_ts_to_utc` of `scripts/ilapfuncs.py` (not under src/)
produces a canonical UTC timestamp string for a Unix epoch value; its
rendering is kept abstract as a tagged string and is never empty. -/
def convert_unix_ts_to_utc (v : DBValue) : String :=
  "unix-utc:" ++ dbValueText v

/-- One element of `files_found`: a file discovered on the extracted
image.  The input/output behaviour the Python code observes for the file
is embedded as data: `hashResult` is what `calculate_file_hash` returns
for it (the SHA-256 hex digest of its content, or the empty string when
the file cannot be opened or read); `onDisk` is `os.path.exists`;
`hasTable` models `does_table_exist_in_db` (from `scripts/ilapfuncs.py`,
modelled from the spec) on this file; `runQuery` models
`get_sqlite_db_records` (modelled from the spec: the SQL row-fetch
collaborator, whose failures raise a catchable error, here
`QueryOutcome.err`) applied to this file, keyed by query text and
parameter list. -/
structure FoundFile where
  path : String
  size : Nat := 0
  mtimeStr : String := ""
  hashResult : String := ""
  onDisk : Bool := true
  hasTable : String → Bool := fun _ => false
  runQuery : String → List String → QueryOutcome := fun _ _ => QueryOutcome.ok []

/-- Source function `calculate_file_hash`: streams the file through
SHA-256 and returns the hex digest, or the empty string when opening or
reading raises.  Identical byte content always yields the identical
non-empty digest; the digest a file hashes to is carried by the
`FoundFile` value. -/
def calculate_file_hash (f : FoundFile) : String := f.hashResult

/-- Query text of `analyze_voice_memos_db` (whitespace normalised). -/
def voiceMemosQuery : String :=
  "SELECT ZCREATIONDATE, ZTITLE, ZURL, ZDURATION FROM ZRECORDING WHERE ZURL LIKE ?"

/-- Query text of `analyze_sms_db` (whitespace normalised). -/
def smsQuery : String :=
  "SELECT a.created_date, a.filename, m.text, h.id as phone_number FROM attachment a LEFT JOIN message m ON a.rowid = m.rowid LEFT JOIN handle h ON m.handle_id = h.rowid WHERE a.filename LIKE ? OR a.filename LIKE ?"

/-- Query text of the ZWAMESSAGE branch of `analyze_whatsapp_db`. -/
def zwamessageQuery : String :=
  "SELECT ZMESSAGEDATE, ZFROMJID, ZTOJID, ZMEDIAITEM FROM ZWAMESSAGE WHERE ZMEDIAITEM LIKE ?"

/-- Generic query text of `analyze_whatsapp_db` for the other schemas. -/
def whatsappGenericQuery (table : String) : String :=
  "SELECT * FROM " ++ table ++ " WHERE filename LIKE ? OR path LIKE ?"

/-- Query text of `analyze_telegram_db`. -/
def telegramQuery (table : String) : String :=
  "SELECT * FROM " ++ table ++ " WHERE (data LIKE ? OR filename LIKE ? OR path LIKE ?) LIMIT 5"

/-- Query text of the part branch of `analyze_signal_db`. -/
def signalPartQuery : String :=
  "SELECT p.data_uri, p.content_type, m.date_sent, m.address FROM part p LEFT JOIN message m ON p.mid = m._id WHERE p.data_uri LIKE ? OR p.content_type LIKE \x27audio%\x27"

/-- Generic query text of `analyze_signal_db`. -/
def signalGenericQuery (table : String) : String :=
  "SELECT * FROM " ++ table ++ " WHERE filename LIKE ? OR path LIKE ? OR data LIKE ? LIMIT 5"

/-- Query text of the attachments branch of `analyze_discord_db`. -/
def discordAttachmentsQuery : String :=
  "SELECT a.filename, a.url, a.size, m.timestamp, m.author_id FROM attachments a LEFT JOIN messages m ON a.message_id = m.id WHERE a.filename LIKE ?"

/-- Generic query text of `analyze_discord_db`. -/
def discordGenericQuery (table : String) : String :=
  "SELECT * FROM " ++ table ++ " WHERE filename LIKE ? OR url LIKE ? OR data LIKE ? LIMIT 5"

/-- Query text of `analyze_voicemail_db` (whitespace normalised). -/
def voicemailQuery : String :=
  "SELECT date, sender, callback_num, duration, flags FROM voicemail WHERE ROWID = ? OR sender LIKE ? OR callback_num LIKE ?"

/-- The dictionary an analyzer returns on success; absent dict keys of
the source are `none`. -/
structure AnalyzerHit where
  database_reference : String
  database_timestamp : String
  participant_info : String
  duration : Option String := none
  message_context : Option String := none
deriving DecidableEq, Repr

/-- Source function `analyze_voice_memos_db`.  A missing expected table,
a raised query, an empty row set, or a row too short for the indexed
accesses (an IndexError caught by the try/except of the source) all
yield `none`. -/
def analyze_voice_memos_db (db : FoundFile) (audio_filename : String) :
    Option AnalyzerHit :=
  if !(db.hasTable "ZRECORDING") then none
  else
    match db.runQuery voiceMemosQuery ["%" ++ audio_filename ++ "%"] with
    | QueryOutcome.err => none
    | QueryOutcome.ok [] => none
    | QueryOutcome.ok (record :: _) =>
      match record.get? 0, record.get? 1, record.get? 3 with
      | some v0, some v1, some v3 =>
        let creation_date := if truthyV v0 then convert_cocoa_core_data_ts_to_utc v0 else ""
        let title := if truthyV v1 then dbValueText v1 else ""
        let duration := if truthyV v3 then fmt2f v3 ++ "s" else ""
        some { database_reference := "Voice Memos: " ++ title,
               database_timestamp := creation_date,
               participant_info := "User recording: " ++ title,
               duration := some duration }
      | _, _, _ => none

/-- Source function `analyze_sms_db`. -/
def analyze_sms_db (db : FoundFile) (audio_filename : String) :
    Option AnalyzerHit :=
  if !(db.hasTable "attachment") then none
  else
    match db.runQuery smsQuery
        ["%" ++ audio_filename ++ "%", "%" ++ splitextBase audio_filename ++ "%"] with
    | QueryOutcome.err => none
    | QueryOutcome.ok [] => none
    | QueryOutcome.ok (record :: _) =>
      match record.get? 0, record.get? 2, record.get? 3 with
      | some v0, some v2, some v3 =>
        let created_date := if truthyV v0 then convert_cocoa_core_data_ts_to_utc v0 else ""
        let phone_number := if truthyV v3 then dbValueText v3 else "Unknown"
        let message_text := if truthyV v2 then dbValueText v2 else ""
        some { database_reference := "SMS/iMessage attachment",
               database_timestamp := created_date,
               participant_info := "From/To: " ++ phone_number,
               message_context :=
                 some (if message_text ≠ "" then strTake message_text 100 else "") }
      | _, _, _ => none

/-- Table scan of `analyze_whatsapp_db`.  A raised query aborts the whole
analyzer (the source wraps only the entire body in try/except), while an
empty row set moves on to the next candidate table. -/
def whatsappTableLoop (db : FoundFile) (audio_filename : String) :
    List String → Option AnalyzerHit
  | [] => none
  | table :: rest =>
    if db.hasTable table then
      let q := if table == "ZWAMESSAGE" then zwamessageQuery else whatsappGenericQuery table
      match db.runQuery q ["%" ++ audio_filename ++ "%"] with
      | QueryOutcome.err => none
      | QueryOutcome.ok [] => whatsappTableLoop db audio_filename rest
      | QueryOutcome.ok (record :: _) =>
        if table == "ZWAMESSAGE" then
          match record.get? 0, record.get? 1, record.get? 2 with
          | some v0, some v1, some v2 =>
            let message_date := if truthyV v0 then convert_cocoa_core_data_ts_to_utc v0 else ""
            let from_jid := if truthyV v1 then dbValueText v1 else ""
            let to_jid := if truthyV v2 then dbValueText v2 else ""
            let participant0 := if from_jid ≠ "" then from_jid else to_jid
            let participant :=
              if participant0 ≠ "" then
                (if strContains participant0 "@" then headBefore participant0 '@'
                 else participant0)
              else participant0
            some { database_reference := "WhatsApp voice message",
                   database_timestamp := message_date,
                   participant_info :=
                     if participant ≠ "" then "Participant: " ++ participant else "" }
          | _, _, _ => none
        else
          some { database_reference := "WhatsApp media",
                 database_timestamp := "",
                 participant_info := "WhatsApp conversation" }
    else whatsappTableLoop db audio_filename rest

/-- Source function `analyze_whatsapp_db`. -/
def analyze_whatsapp_db (db : FoundFile) (audio_filename : String) :
    Option AnalyzerHit :=
  whatsappTableLoop db audio_filename ["ZWAMESSAGE", "ZWAMEDIAITEM", "message", "media_item"]

/-- Table scan of `analyze_telegram_db`; the inner try/except of the
source turns a raised query into a move to the next candidate table. -/
def telegramTableLoop (db : FoundFile) (audio_filename : String) :
    List String → Option AnalyzerHit
  | [] => none
  | table :: rest =>
    if db.hasTable table then
      match db.runQuery (telegramQuery table)
          ["%" ++ audio_filename ++ "%", "%" ++ audio_filename ++ "%",
           "%" ++ audio_filename ++ "%"] with
      | QueryOutcome.err => telegramTableLoop db audio_filename rest
      | QueryOutcome.ok [] => telegramTableLoop db audio_filename rest
      | QueryOutcome.ok (_ :: _) =>
        some { database_reference := "Telegram voice message",
               database_timestamp := "",
               participant_info := "Telegram conversation" }
    else telegramTableLoop db audio_filename rest

/-- Source function `analyze_telegram_db`. -/
def analyze_telegram_db (db : FoundFile) (audio_filename : String) :
    Option AnalyzerHit :=
  telegramTableLoop db audio_filename ["messages", "media", "documents"]

/-- Table scan of `analyze_signal_db`; the inner try/except of the source
turns a raised query into a move to the next candidate table. -/
def signalTableLoop (db : FoundFile) (audio_filename : String) :
    List String → Option AnalyzerHit
  | [] => none
  | table :: rest =>
    if db.hasTable table then
      let outcome :=
        if table == "part" then db.runQuery signalPartQuery ["%" ++ audio_filename ++ "%"]
        else db.runQuery (signalGenericQuery table)
          ["%" ++ audio_filename ++ "%", "%" ++ audio_filename ++ "%",
           "%" ++ audio_filename ++ "%"]
      match outcome with
      | QueryOutcome.err => signalTableLoop db audio_filename rest
      | QueryOutcome.ok [] => signalTableLoop db audio_filename rest
      | QueryOutcome.ok (record :: _) =>
        if table == "part" && record.length ≥ 4 then
          let v2 := record.getD 2 DBValue.null
          let v3 := record.getD 3 DBValue.null
          let date_sent := if truthyV v2 then convert_unix_ts_to_utc v2 else ""
          let address := if truthyV v3 then dbValueText v3 else "Unknown"
          some { database_reference := "Signal voice message",
                 database_timestamp := date_sent,
                 participant_info := "Signal contact: " ++ address }
        else
          some { database_reference := "Signal voice message",
                 database_timestamp := "",
                 participant_info := "Signal conversation" }
    else signalTableLoop db audio_filename rest

/-- Source function `analyze_signal_db`. -/
def analyze_signal_db (db : FoundFile) (audio_filename : String) :
    Option AnalyzerHit :=
  signalTableLoop db audio_filename ["part", "message", "attachment"]

/-- Discord timestamp conversion: the source divides the raw value by
1000 and converts it as Unix seconds, and turns a conversion error into
the empty string (non-numeric cells are rendered empty here). -/
def discordDateOf (v : DBValue) : String :=
  match v with
  | DBValue.intVal n => convert_unix_ts_to_utc (DBValue.intVal (n / 1000))
  | _ => ""

/-- Table scan of `analyze_discord_db`; the inner try/except of the
source turns a raised query into a move to the next candidate table. -/
def discordTableLoop (db : FoundFile) (audio_filename : String) :
    List String → Option AnalyzerHit
  | [] => none
  | table :: rest =>
    if db.hasTable table then
      let outcome :=
        if table == "attachments" then
          db.runQuery discordAttachmentsQuery ["%" ++ audio_filename ++ "%"]
        else db.runQuery (discordGenericQuery table)
          ["%" ++ audio_filename ++ "%", "%" ++ audio_filename ++ "%",
           "%" ++ audio_filename ++ "%"]
      match outcome with
      | QueryOutcome.err => discordTableLoop db audio_filename rest
      | QueryOutcome.ok [] => discordTableLoop db audio_filename rest
      | QueryOutcome.ok (record :: _) =>
        if table == "attachments" && record.length ≥ 5 then
          let v3 := record.getD 3 DBValue.null
          let v4 := record.getD 4 DBValue.null
          let author_id := if truthyV v4 then dbValueText v4 else "Unknown"
          let discord_date := if truthyV v3 then discordDateOf v3 else ""
          some { database_reference := "Discord voice attachment",
                 database_timestamp := discord_date,
                 participant_info := "Discord user: " ++ author_id }
        else
          some { database_reference := "Discord voice attachment",
                 database_timestamp := "",
                 participant_info := "Discord conversation" }
    else discordTableLoop db audio_filename rest

/-- Source function `analyze_discord_db`. -/
def analyze_discord_db (db : FoundFile) (audio_filename : String) :
    Option AnalyzerHit :=
  discordTableLoop db audio_filename ["attachments", "messages", "media_cache"]

/-- Source function `analyze_voicemail_db`. -/
def analyze_voicemail_db (db : FoundFile) (audio_filename : String) :
    Option AnalyzerHit :=
  if !(db.hasTable "voicemail") then none
  else
    let voicemail_id := splitextBase audio_filename
    match db.runQuery voicemailQuery
        [voicemail_id, "%" ++ voicemail_id ++ "%", "%" ++ voicemail_id ++ "%"] with
    | QueryOutcome.err => none
    | QueryOutcome.ok [] => none
    | QueryOutcome.ok (record :: _) =>
      match record.get? 0, record.get? 1, record.get? 2, record.get? 3 with
      | some v0, some v1, some v2, some v3 =>
        let voicemail_date := if truthyV v0 then convert_unix_ts_to_utc v0 else ""
        let sender := if truthyV v1 then dbValueText v1 else "Unknown"
        let callback_num := if truthyV v2 then dbValueText v2 else ""
        let duration := if truthyV v3 then dbValueText v3 ++ "s" else ""
        let participant_info := if sender ≠ "Unknown" then sender else callback_num
        some { database_reference := "System Voicemail",
               database_timestamp := voicemail_date,
               participant_info := "From: " ++ participant_info,
               duration := some duration }
      | _, _, _, _ => none

/-- The context dictionary built by `analyze_database_context`; the
confidence score of the source is a float and is stored here in
hundredths. -/
structure DbContext where
  database_reference : String := ""
  database_timestamp : String := ""
  participant_info : String := ""
  classification_boost : Option String := none
  confidence_score : Nat := 100
  duration : Option String := none
  message_context : Option String := none
deriving DecidableEq, Repr

/-- The default context value created at the top of
`analyze_database_context`. -/
def defaultDbContext : DbContext := {}

/-- The `context.update(hit)` step followed by setting the boost and the
confidence, as done in every successful branch of
`analyze_database_context`. -/
def applyHit (h : AnalyzerHit) (boost : String) (conf : Nat) : DbContext :=
  { database_reference := h.database_reference,
    database_timestamp := h.database_timestamp,
    participant_info := h.participant_info,
    classification_boost := some boost,
    confidence_score := conf,
    duration := h.duration,
    message_context := h.message_context }

/-- The signature dispatch applied to one database file of the pool: the
chain of path tests of `analyze_database_context`, in source order, with
the boost id and confidence each branch assigns. -/
def probeDb (db : FoundFile) (audio_filename : String) : Option DbContext :=
  let db_path := strLower db.path
  if strContains db_path "recordings.sqlite" then
    (analyze_voice_memos_db db audio_filename).map (fun h => applyHit h "USER_CONTENT" 95)
  else if strContains db_path "sms.db" then
    (analyze_sms_db db audio_filename).map (fun h => applyHit h "COMMUNICATION_AUDIO" 90)
  else if strContains db_path "chatstorage.sqlite" then
    (analyze_whatsapp_db db audio_filename).map (fun h => applyHit h "COMMUNICATION_AUDIO" 90)
  else if strContains db_path "db_sqlite" && strContains db_path "telegram" then
    (analyze_telegram_db db audio_filename).map (fun h => applyHit h "COMMUNICATION_AUDIO" 85)
  else if strContains db_path "database" && strContains db_path "signal" then
    (analyze_signal_db db audio_filename).map (fun h => applyHit h "COMMUNICATION_AUDIO" 85)
  else if strContains db_path "database_" && strContains db_path "discord" then
    (analyze_discord_db db audio_filename).map (fun h => applyHit h "COMMUNICATION_AUDIO" 80)
  else if strContains db_path "voicemail.db" then
    (analyze_voicemail_db db audio_filename).map (fun h => applyHit h "COMMUNICATION_AUDIO" 95)
  else none

/-- The pool filter of `analyze_database_context`: only files whose path
ends in .db or .sqlite are probed. -/
def isDbFile (f : FoundFile) : Bool :=
  strEndsWith f.path ".db" || strEndsWith f.path ".sqlite"

/-- The pool scan of `analyze_database_context`: probe each database in
pool order and return on the first success. -/
def correlateLoop (audio_filename : String) : List FoundFile → Option DbContext
  | [] => none
  | db :: rest =>
    match probeDb db audio_filename with
    | some c => some c
    | none => correlateLoop audio_filename rest

/-- Source function `analyze_database_context(files_found,
audio_file_path)`. -/
def analyze_database_context (files_found : List FoundFile)
    (audio_file_path : String) : DbContext :=
  let audio_filename := basename audio_file_path
  let db_files := files_found.filter isDbFile
  match correlateLoop audio_filename db_files with
  | some c => c
  | none => defaultDbContext

/-- One output row of the aggregator, with the fields of the
`data_list.append` of the source in order. -/
structure AudioRecord where
  timestamp : String
  audio_type : String
  functional_category : String
  forensic_relevance : String
  relevance_score : Nat
  file_path : String
  file_size : String
  duration : String
  source_app : String
  database_reference : String
  classification_method : String
  custom_default : String
  participant_info : String
  source_file : String
deriving DecidableEq, Repr

/-- Ordered lookup in the category table, Python `boost_category in
AUDIO_CATEGORIES` plus the access `AUDIO_CATEGORIES[boost_category]`. -/
def lookupCategory (category_id : String) : Option CategoryInfo :=
  match AUDIO_CATEGORIES.find? (fun kv => kv.1 == category_id) with
  | some kv => some kv.2
  | none => none

/-- The classification-boost block of the processing loop: overwrite the
path-based type, tier and score with the boosted category when the boost
id is truthy and present in the table, and re-derive the functional
category from the database reference label. -/
def applyBoost (db_context : DbContext) (database_reference : String)
    (audio_type functional_category forensic_relevance : String)
    (relevance_score : Nat) : String × String × String × Nat :=
  match db_context.classification_boost with
  | none => (audio_type, functional_category, forensic_relevance, relevance_score)
  | some boost_category =>
    if truthy boost_category then
      match lookupCategory boost_category with
      | none => (audio_type, functional_category, forensic_relevance, relevance_score)
      | some boosted_info =>
        let functional_category2 :=
          if boost_category == "USER_CONTENT"
              && strContains database_reference "Voice Memos" then
            "Voice Recording"
          else if boost_category == "COMMUNICATION_AUDIO" then
            let dr := strLower database_reference
            if strContains dr "voicemail" then "Voicemail"
            else if strContains dr "whatsapp" then "Voice Message"
            else if strContains dr "telegram" then "Voice Message"
            else if strContains dr "signal" then "Voice Message"
            else if strContains dr "discord" then "Voice Message"
            else if strContains dr "sms" || strContains dr "imessage" then "Voice Message"
            else functional_category
          else functional_category
        (boosted_info.name, functional_category2, boosted_info.forensic_relevance,
         boosted_info.score)
    else (audio_type, functional_category, forensic_relevance, relevance_score)

/-- The per-file record synthesis of the processing loop (everything
between the classification call and the `data_list.append`). -/
def mkRecord (files_found : List FoundFile) (f : FoundFile) : AudioRecord :=
  let file_size := f.size
  let mod_time := f.mtimeStr
  let pc := classify_audio_file f.path file_size
  let audio_type0 := pc.1
  let functional_category0 := pc.2.1
  let forensic_relevance0 := pc.2.2.1
  let relevance_score0 := pc.2.2.2
  let db_context := analyze_database_context files_found f.path
  let found := truthy db_context.database_reference
  let classification_method := if found then "Database-enhanced" else "Path-based"
  let database_reference := if found then db_context.database_reference else ""
  let database_timestamp :=
    if found && truthy db_context.database_timestamp then db_context.database_timestamp
    else mod_time
  let participant_info :=
    if found && truthy db_context.participant_info then db_context.participant_info
    else ""
  let duration :=
    if found then
      match db_context.duration with
      | some d => if truthy d then d else ""
      | none => ""
    else ""
  let enhanced :=
    if found then
      applyBoost db_context database_reference audio_type0 functional_category0
        forensic_relevance0 relevance_score0
    else (audio_type0, functional_category0, forensic_relevance0, relevance_score0)
  let audio_type := enhanced.1
  let functional_category := enhanced.2.1
  let forensic_relevance := enhanced.2.2.1
  let relevance_score := enhanced.2.2.2
  let custom_default := get_custom_default_indicator f.path audio_type
  let size_str := format_file_size file_size
  let source_app := extract_source_app f.path
  let relative_path := relativePathOf f.path
  { timestamp := database_timestamp,
    audio_type := audio_type,
    functional_category := functional_category,
    forensic_relevance := forensic_relevance,
    relevance_score := relevance_score,
    file_path := relative_path,
    file_size := size_str,
    duration := duration,
    source_app := source_app,
    database_reference := database_reference,
    classification_method := classification_method,
    custom_default := custom_default,
    participant_info := participant_info,
    source_file := f.path }

/-- The audio-extension filter applied to `files_found` before the
processing loop. -/
def isAudioFile (p : String) : Bool :=
  SUPPORTED_AUDIO_EXTENSIONS.any (fun e => strEndsWith (strLower p) e)

/-- The per-file processing loop of `allUserAudio`: skip files that are
not on disk, skip a file whose non-empty hash was already seen, record a
non-empty hash, and append one synthesized record otherwise.  The seen
set is a list used only through membership and insertion. -/
def processLoop (files_found : List FoundFile) :
    List FoundFile → List String → List AudioRecord
  | [], _ => []
  | f :: rest, seen_hashes =>
    if f.onDisk then
      let file_hash := calculate_file_hash f
      if truthy file_hash && seen_hashes.contains file_hash then
        processLoop files_found rest seen_hashes
      else
        mkRecord files_found f ::
          processLoop files_found rest
            (if truthy file_hash then file_hash :: seen_hashes else seen_hashes)
    else processLoop files_found rest seen_hashes

/-- Source artifact entry point `allUserAudio(files_found, ...)`,
restricted to the record set it produces. -/
def allUserAudio (files_found : List FoundFile) : List AudioRecord :=
  processLoop files_found (files_found.filter (fun f => isAudioFile f.path)) []

/-- Companion view of the processing loop: `true` at the position of a
candidate exactly when the loop appends a record for it. -/
def processFlags : List FoundFile → List String → List Bool
  | [], _ => []
  | f :: rest, seen_hashes =>
    if f.onDisk then
      let file_hash := calculate_file_hash f
      if truthy file_hash && seen_hashes.contains file_hash then
        false :: processFlags rest seen_hashes
      else
        true :: processFlags rest
          (if truthy file_hash then file_hash :: seen_hashes else seen_hashes)
    else false :: processFlags rest seen_hashes

/-- The records selected by a flag vector. -/
def emittedRecords (files_found : List FoundFile) (cs : List FoundFile)
    (flags : List Bool) : List AudioRecord :=
  (cs.zip flags).filterMap (fun p => if p.2 then some (mkRecord files_found p.1) else none)

/-- State of the aggregation engine (`scripts/aggregation_engine.py`);
the defaultdict counters are association lists read through
`lookupCount` with default 0. -/
structure AggState where
  messaging_apps : List (String × Int)
  social_media_apps : List (String × Int)
  location_sources : List (String × Int)
  device_info : List (String × String)
  timeline_events : List String
  artifact_counts : List (String × Int)
  processing_errors : List (String × String)
deriving DecidableEq, Repr

/-- The state after `AggregationEngine.reset()`: every collection
empty. -/
def emptyAggState : AggState :=
  { messaging_apps := [], social_media_apps := [], location_sources := [],
    device_info := [], timeline_events := [], artifact_counts := [],
    processing_errors := [] }

/-- Source method `AggregationEngine.reset()`. -/
def resetState (_st : AggState) : AggState := emptyAggState

/-- Reading a defaultdict(int) counter: 0 when the key is absent. -/
def lookupCount (m : List (String × Int)) (k : String) : Int :=
  match m.find? (fun kv => kv.1 == k) with
  | some kv => kv.2
  | none => 0

/-- Writing a defaultdict counter: replace the binding of the key, or
append a fresh binding. -/
def setCount : List (String × Int) → String → Int → List (String × Int)
  | [], k, v => [(k, v)]
  | kv :: rest, k, v =>
    if kv.1 == k then (kv.1, v) :: rest else kv :: setCount rest k v

/-- Source method `AggregationEngine.report_messaging_count`: adds the
reported count onto the counter of the app. -/
def report_messaging_count (st : AggState) (app_name : String)
    (message_count : Int) : AggState :=
  let v := lookupCount st.messaging_apps app_name + message_count
  { st with messaging_apps := setCount st.messaging_apps app_name v }

/-- Source method `AggregationEngine.report_social_media_count`. -/
def report_social_media_count (st : AggState) (app_name : String)
    (activity_count : Int) : AggState :=
  let v := lookupCount st.social_media_apps app_name + activity_count
  { st with social_media_apps := setCount st.social_media_apps app_name v }

/-- Source method `AggregationEngine.report_location_data`. -/
def report_location_data (st : AggState) (source : String)
    (location_count : Int) : AggState :=
  let v := lookupCount st.location_sources source + location_count
  { st with location_sources := setCount st.location_sources source v }

/-- Source method `AggregationEngine.report_artifact_processed`: stores
the reported count, overwriting any previous value for the artifact. -/
def report_artifact_processed (st : AggState) (artifact_name : String)
    (record_count : Int) : AggState :=
  { st with artifact_counts := setCount st.artifact_counts artifact_name record_count }

/-- Spec-side predicate for the classifier: does some glob pattern of the
category rule (lowered) match the case-folded path. The first table entry
satisfying it is the rule the spec says must win. -/
def categoryMatches (file_path_lower : String) (kv : String × CategoryInfo) : Bool :=
  kv.2.patterns.any (fun pat => globMatch (strLower pat).toList file_path_lower.toList)

/-- The pattern scan of the classifier picks exactly the first table entry,
in declaration order, with a matching pattern. -/
theorem classifyLoop_eq_find (file_path_lower file_path : String) (file_size : Nat)
    (l : List (String × CategoryInfo)) :
    classifyLoop file_path_lower file_path file_size l
      = (l.find? (categoryMatches file_path_lower)).map
          (fun kv => (kv.2.name,
            determine_functional_category file_path file_size kv.1,
            kv.2.forensic_relevance, kv.2.score)) := by
  induction l with
  | nil => rfl
  | cons kv rest ih =>
    obtain ⟨cid, info⟩ := kv
    simp only [classifyLoop]
    cases hb : (info.patterns.any fun pat => globMatch (strLower pat).toList file_path_lower.toList) with
    | true =>
      have hcm : categoryMatches file_path_lower (cid, info) = true := hb
      rw [List.find?_cons_of_pos _ hcm]
      simp
    | false =>
      have hcm : categoryMatches file_path_lower (cid, info) = false := hb
      rw [List.find?_cons_of_neg _ (by intro hx; rw [hcm] at hx; exact Bool.false_ne_true hx)]
      simpa using ih

/-- C3: for every path string and size, `classify_audio_file` returns the
category data (display name, forensic tier, relevance score, plus the
derived functional subtype) of the first rule of the category table, in
its fixed declaration order, that has a glob pattern matching the
case-folded path — regardless of the scores of later matching rules —
and when no rule matches it returns the synthetic Unknown result with
tier MEDIUM and score 2; the function is total, so no input is an
error. -/
theorem audio_c3_first_rule_wins (file_path : String) (file_size : Nat) :
    (∀ kv, AUDIO_CATEGORIES.find? (categoryMatches (strLower file_path)) = some kv →
      classify_audio_file file_path file_size
        = (kv.2.name, determine_functional_category file_path file_size kv.1,
           kv.2.forensic_relevance, kv.2.score))
    ∧ (AUDIO_CATEGORIES.find? (categoryMatches (strLower file_path)) = none →
      classify_audio_file file_path file_size = ("Unknown Audio", "Unclassified", "MEDIUM", 2)) := by
  constructor
  · intro kv hfind
    simp only [classify_audio_file]
    rw [classifyLoop_eq_find, hfind]
    rfl
  · intro hfind
    simp only [classify_audio_file]
    rw [classifyLoop_eq_find, hfind]
    rfl

/-- Witness for C3 at a concrete Voice Trigger path. -/
theorem audio_c3_first_rule_wins_witness :
    AUDIO_CATEGORIES.find? (categoryMatches (strLower "/var/mobile/Library/VoiceTrigger/td/audio1.wav"))
      = some ("VOICE_COMMANDS",
          { name := "Voice Commands", forensic_relevance := "MEDIUM", score := 2,
            patterns := [ "*/Library/VoiceTrigger/*" ] })
    ∧ classify_audio_file "/var/mobile/Library/VoiceTrigger/td/audio1.wav" 4096
      = ("Voice Commands", "Siri Voice Trigger", "MEDIUM", 2) := by
  constructor
  · decide
  · have h := (audio_c3_first_rule_wins "/var/mobile/Library/VoiceTrigger/td/audio1.wav" 4096).1
      ("VOICE_COMMANDS",
        { name := "Voice Commands", forensic_relevance := "MEDIUM", score := 2,
          patterns := [ "*/Library/VoiceTrigger/*" ] }) (by decide)
    rw [h]
    decide

/-- C10: the classifier output does not depend on the byte-size
argument. -/
theorem audio_c10_size_independent (file_path : String) (s1 s2 : Nat) :
    classify_audio_file file_path s1 = classify_audio_file file_path s2 := by
  simp only [classify_audio_file, classifyLoop_eq_find]
  cases AUDIO_CATEGORIES.find? (categoryMatches (strLower file_path)) with
  | none => rfl
  | some kv => rfl

/-- Fixture for C4: a user recording under an application Documents
folder; the path contains none of the substrings custom, user, system,
default. -/
def c4file : FoundFile :=
  { path := "/private/var/mobile/Containers/Data/Application/AAA/Documents/memo.m4a",
    size := 120000, mtimeStr := "2025-01-01 00:00:00 UTC", hashResult := "h1" }

/-- C4 evidence: the synthesized record for a USER_CONTENT file carries
the custom/default indicator "Unknown", not the "Custom" the indicator
function was written to return for user content: the indicator branches
compare against the category ids USER_CONTENT and APP_ASSETS while the
record carries the display names (here "User Content"), so those
branches never fire and the substring heuristic decides instead. -/
theorem audio_c4_indicator_eval :
    (mkRecord [] c4file).audio_type = "User Content"
    ∧ (mkRecord [] c4file).custom_default = "Unknown"
    ∧ get_custom_default_indicator c4file.path "USER_CONTENT" = "Custom" := by
  decide

/-- Reading a counter list extended at the front. -/
theorem lookupCount_cons (a : String) (b : Int) (rest : List (String × Int))
    (k2 : String) :
    lookupCount ((a, b) :: rest) k2 = if a = k2 then b else lookupCount rest k2 := by
  by_cases h : a = k2
  · subst h
    simp [lookupCount, List.find?]
  · have hb : (a == k2) = false := beq_eq_false_iff_ne.mpr h
    simp [lookupCount, List.find?, hb, h]

/-- Writing an absent key appends it. -/
theorem setCount_nil (k : String) (v : Int) : setCount [] k v = [(k, v)] := rfl

/-- Writing a key present at the front replaces its value. -/
theorem setCount_cons_eq (a : String) (b : Int) (rest : List (String × Int))
    (v : Int) :
    setCount ((a, b) :: rest) a v = (a, v) :: rest := by
  simp [setCount]

/-- Writing a key absent at the front keeps the front binding. -/
theorem setCount_cons_ne (a : String) (b : Int) (rest : List (String × Int))
    (k : String) (v : Int) (h : a ≠ k) :
    setCount ((a, b) :: rest) k v = (a, b) :: setCount rest k v := by
  have hb : (a == k) = false := beq_eq_false_iff_ne.mpr h
  simp [setCount, hb]

/-- Reading a counter after writing one: the written key holds the
written value, every other key is untouched. -/
theorem lookupCount_setCount (m : List (String × Int)) (k : String) (v : Int)
    (k2 : String) :
    lookupCount (setCount m k v) k2 = if k2 = k then v else lookupCount m k2 := by
  induction m with
  | nil =>
    rw [setCount_nil, lookupCount_cons]
    by_cases h : k2 = k
    · subst h
      simp
    · have h2 : ¬ (k = k2) := fun he => h he.symm
      simp [lookupCount, h, h2]
  | cons kv rest ih =>
    obtain ⟨a, b⟩ := kv
    by_cases hk : a = k
    · subst hk
      rw [setCount_cons_eq, lookupCount_cons, lookupCount_cons]
      by_cases h2 : k2 = a
      · subst h2
        simp
      · have h2b : ¬ (a = k2) := fun he => h2 he.symm
        simp [h2, h2b]
    · rw [setCount_cons_ne _ _ _ _ _ hk, lookupCount_cons, lookupCount_cons, ih]
      by_cases h2 : a = k2
      · subst h2
        simp [hk]
      · simp [h2]

/-- C9 counterexample: reporting an artifact count of 3 after an earlier
report of 5 for the same artifact leaves the stored counter at 3, below
its previous value — `report_artifact_processed` assigns instead of
accumulating, so the claimed monotonicity fails for a non-negative
reported count. -/
theorem agg_c9_counterexample :
    ¬ (lookupCount (report_artifact_processed
          (report_artifact_processed emptyAggState "AllUserAudio" 5)
          "AllUserAudio" 3).artifact_counts "AllUserAudio"
        ≥ lookupCount (report_artifact_processed emptyAggState "AllUserAudio" 5).artifact_counts
            "AllUserAudio") := by decide

/-- C9 amended: within one run the messaging, social-media and location
report calls accumulate monotonically for every key and every
non-negative reported count; the artifact-processed report instead
stores exactly the reported value, overwriting any previous counter; and
reset restores every counter to empty. -/
theorem agg_c9_monotone_amended :
    (∀ (st : AggState) (app : String) (n : Int), 0 ≤ n → ∀ k,
        lookupCount st.messaging_apps k
          ≤ lookupCount (report_messaging_count st app n).messaging_apps k)
    ∧ (∀ (st : AggState) (app : String) (n : Int), 0 ≤ n → ∀ k,
        lookupCount st.social_media_apps k
          ≤ lookupCount (report_social_media_count st app n).social_media_apps k)
    ∧ (∀ (st : AggState) (source : String) (n : Int), 0 ≤ n → ∀ k,
        lookupCount st.location_sources k
          ≤ lookupCount (report_location_data st source n).location_sources k)
    ∧ (∀ (st : AggState) (a : String) (n : Int),
        lookupCount (report_artifact_processed st a n).artifact_counts a = n)
    ∧ (∀ st : AggState, resetState st = emptyAggState) := by
  refine ⟨?_, ?_, ?_, ?_, fun _ => rfl⟩
  · intro st app n hn k
    simp only [report_messaging_count, lookupCount_setCount]
    by_cases h : k = app
    · subst h
      simp
      omega
    · simp [h]
  · intro st app n hn k
    simp only [report_social_media_count, lookupCount_setCount]
    by_cases h : k = app
    · subst h
      simp
      omega
    · simp [h]
  · intro st source n hn k
    simp only [report_location_data, lookupCount_setCount]
    by_cases h : k = source
    · subst h
      simp
      omega
    · simp [h]
  · intro st a n
    simp only [report_artifact_processed, lookupCount_setCount]
    simp

/-- Witness for the amended C9 at a concrete state and count. -/
theorem agg_c9_monotone_amended_witness :
    lookupCount emptyAggState.messaging_apps "WhatsApp"
      ≤ lookupCount (report_messaging_count emptyAggState "WhatsApp" 1308).messaging_apps
          "WhatsApp" :=
  agg_c9_monotone_amended.1 emptyAggState "WhatsApp" 1308 (by decide) "WhatsApp"

/-- Fixture: a Voice Memos database whose lookup succeeds for the
filename 40.m4a. -/
def vmFixtureDB : FoundFile :=
  { path := "y/recordings.sqlite",
    hasTable := fun t => t == "ZRECORDING",
    runQuery := fun _ _ => QueryOutcome.ok
      [[DBValue.intVal 200, DBValue.textVal "My memo",
        DBValue.textVal "p/40.m4a", DBValue.intVal 5]] }

/-- Fixture: a WhatsApp database whose lookup succeeds for the filename
40.m4a. -/
def waFixtureDB : FoundFile :=
  { path := "x/chatstorage.sqlite",
    hasTable := fun t => t == "ZWAMESSAGE",
    runQuery := fun _ _ => QueryOutcome.ok
      [[DBValue.intVal 100, DBValue.textVal "15551234@s.whatsapp.net",
        DBValue.textVal "", DBValue.textVal "40.m4a"]] }

/-- The context the Voice Memos fixture produces. -/
def vmFixtureCtx : DbContext :=
  { database_reference := "Voice Memos: My memo",
    database_timestamp := "cocoa-utc:200",
    participant_info := "User recording: My memo",
    classification_boost := some "USER_CONTENT",
    confidence_score := 95,
    duration := some "5.00s",
    message_context := none }

/-- C1 counterexample: with both a matching Voice Memos database and a
matching WhatsApp database in the pool, the returned database reference
is the one of whichever database comes first in the pool, not always the
Voice Memos one: the loop of `analyze_database_context` iterates the
pool, and per database only the first matching signature of the declared
chain is tried, so pool order, not signature order, decides. -/
theorem audio_c1_counterexample :
    (analyze_database_context [waFixtureDB, vmFixtureDB] "a/b/40.m4a").database_reference
      = "WhatsApp voice message"
    ∧ (analyze_database_context [vmFixtureDB, waFixtureDB] "a/b/40.m4a").database_reference
      = "Voice Memos: My memo"
    ∧ ¬ ((analyze_database_context [waFixtureDB, vmFixtureDB] "a/b/40.m4a").database_reference
      = "Voice Memos: My memo") := by decide

/-- Unfolding of the correlator over the head of the pool. -/
theorem analyze_database_context_cons (d : FoundFile) (l : List FoundFile)
    (p : String) :
    analyze_database_context (d :: l) p
      = if isDbFile d then
          match probeDb d (basename p) with
          | some c => c
          | none => analyze_database_context l p
        else analyze_database_context l p := by
  by_cases hd : isDbFile d
  · simp only [analyze_database_context, List.filter, hd, if_pos, correlateLoop]
    cases probeDb d (basename p) with
    | some c => rfl
    | none => rfl
  · have hd2 : isDbFile d = false := by
      cases h : isDbFile d
      · rfl
      · exact absurd h hd
    simp only [analyze_database_context, List.filter, hd2, if_neg hd]
    simp

/-- C1 amended: the correlator returns the context of the first database
in pool order whose signature matches and whose lookup succeeds; the
declared signature order only selects which single signature is tried
for each database, so with both a Voice-Memos and a WhatsApp match in
the pool the result follows pool order (it is the Voice-Memos context
exactly when the Voice-Memos database comes first). -/
theorem audio_c1_first_database_wins (pre post : List FoundFile) (db : FoundFile)
    (audio_file_path : String) (c : DbContext)
    (hpre : ∀ d ∈ pre, isDbFile d = true → probeDb d (basename audio_file_path) = none)
    (hdb : isDbFile db = true)
    (hprobe : probeDb db (basename audio_file_path) = some c) :
    analyze_database_context (pre ++ db :: post) audio_file_path = c := by
  induction pre with
  | nil =>
    rw [List.nil_append, analyze_database_context_cons, if_pos hdb, hprobe]
  | cons d rest ih =>
    rw [List.cons_append, analyze_database_context_cons]
    by_cases hd : isDbFile d
    · rw [if_pos hd, hpre d (List.mem_cons_self d rest) hd]
      exact ih (fun d2 h2 => hpre d2 (List.mem_cons_of_mem d h2))
    · rw [if_neg hd]
      exact ih (fun d2 h2 => hpre d2 (List.mem_cons_of_mem d h2))

/-- Witness for the amended C1: empty failing prefix, the Voice Memos
fixture first, the WhatsApp fixture after it. -/
theorem audio_c1_first_database_wins_witness :
    analyze_database_context ([] ++ vmFixtureDB :: [waFixtureDB]) "a/b/40.m4a"
      = vmFixtureCtx :=
  audio_c1_first_database_wins [] [waFixtureDB] vmFixtureDB "a/b/40.m4a" vmFixtureCtx
    (fun d hd => absurd hd (List.not_mem_nil d)) (by decide) (by decide)

/-- C5: a candidate whose hash could not be computed (empty digest) is
never treated as a duplicate: the loop does not skip it, still appends a
record for it, and passes the seen set on unchanged, so the empty hash
is never recorded and deduplication is merely disabled for that one
file. -/
theorem audio_c5_empty_hash_no_dedup (files_found rest : List FoundFile)
    (seen_hashes : List String) (f : FoundFile)
    (hd : f.onDisk = true) (hh : calculate_file_hash f = "") :
    processLoop files_found (f :: rest) seen_hashes
      = mkRecord files_found f :: processLoop files_found rest seen_hashes
    ∧ processFlags (f :: rest) seen_hashes = true :: processFlags rest seen_hashes := by
  have ht : truthy (calculate_file_hash f) = false := by
    rw [hh]
    rfl
  constructor
  · simp [processLoop, hd, ht]
  · simp [processFlags, hd, ht]

/-- Fixture for the C5 witness: an unreadable file (empty digest). -/
def c5file : FoundFile := { path := "/Documents/broken.m4a", hashResult := "" }

/-- Witness for C5: the unreadable file is processed against a non-empty
seen set, is not skipped, and leaves the seen set unchanged. -/
theorem audio_c5_empty_hash_no_dedup_witness :
    c5file.onDisk = true ∧ calculate_file_hash c5file = ""
    ∧ processLoop [] [c5file] ["somehash"] = [mkRecord [] c5file]
    ∧ processFlags [c5file] ["somehash"] = [true] := by
  refine ⟨rfl, rfl, ?_, ?_⟩
  · have h := (audio_c5_empty_hash_no_dedup [] [] ["somehash"] c5file rfl rfl).1
    rw [h]
    rfl
  · have h := (audio_c5_empty_hash_no_dedup [] [] ["somehash"] c5file rfl rfl).2
    rw [h]
    rfl

/-- C8: the record timestamp is the database timestamp exactly when a
database context was found (non-empty reference) with a non-empty
timestamp, and the filesystem modification time otherwise. -/
theorem audio_c8_timestamp_precedence (files_found : List FoundFile) (f : FoundFile) :
    ((analyze_database_context files_found f.path).database_reference ≠ "" →
      (analyze_database_context files_found f.path).database_timestamp ≠ "" →
      (mkRecord files_found f).timestamp
        = (analyze_database_context files_found f.path).database_timestamp)
    ∧ (((analyze_database_context files_found f.path).database_reference = ""
        ∨ (analyze_database_context files_found f.path).database_timestamp = "") →
      (mkRecord files_found f).timestamp = f.mtimeStr) := by
  constructor
  · intro h1 h2
    have t1 : truthy (analyze_database_context files_found f.path).database_reference = true := by
      simp [truthy, h1]
    have t2 : truthy (analyze_database_context files_found f.path).database_timestamp = true := by
      simp [truthy, h2]
    simp [mkRecord, t1, t2]
  · intro h
    cases h with
    | inl h1 =>
      have t1 : truthy (analyze_database_context files_found f.path).database_reference = false := by
        simp [truthy, h1]
      simp [mkRecord, t1]
    | inr h2 =>
      have t2 : truthy (analyze_database_context files_found f.path).database_timestamp = false := by
        simp [truthy, h2]
      simp [mkRecord, t2]

/-- Fixture for the C8 witness. -/
def c8file : FoundFile :=
  { path := "/Documents/x.m4a", mtimeStr := "2025-02-02 10:00:00 UTC", hashResult := "h2" }

/-- Witness for C8: with an empty pool no context is found and the
record carries the modification time. -/
theorem audio_c8_timestamp_precedence_witness :
    (mkRecord [] c8file).timestamp = "2025-02-02 10:00:00 UTC" :=
  (audio_c8_timestamp_precedence [] c8file).2 (Or.inl (by decide))


/-- A Voice Memos hit always carries a non-empty database reference. -/
theorem analyze_voice_memos_db_ref (db : FoundFile) (f : String) (h : AnalyzerHit)
    (hp : analyze_voice_memos_db db f = some h) :
    truthy h.database_reference = true := by
  unfold analyze_voice_memos_db at hp
  split at hp
  · exact Option.noConfusion hp
  · split at hp
    · exact Option.noConfusion hp
    · exact Option.noConfusion hp
    · split at hp
      all_goals first
        | exact Option.noConfusion hp
        | (simp only [Option.some.injEq] at hp; subst hp; rfl)

/-- An SMS hit always carries a non-empty database reference. -/
theorem analyze_sms_db_ref (db : FoundFile) (f : String) (h : AnalyzerHit)
    (hp : analyze_sms_db db f = some h) :
    truthy h.database_reference = true := by
  unfold analyze_sms_db at hp
  split at hp
  · exact Option.noConfusion hp
  · split at hp
    · exact Option.noConfusion hp
    · exact Option.noConfusion hp
    · split at hp
      all_goals first
        | exact Option.noConfusion hp
        | (simp only [Option.some.injEq] at hp; subst hp; rfl)

/-- A voicemail hit always carries a non-empty database reference. -/
theorem analyze_voicemail_db_ref (db : FoundFile) (f : String) (h : AnalyzerHit)
    (hp : analyze_voicemail_db db f = some h) :
    truthy h.database_reference = true := by
  unfold analyze_voicemail_db at hp
  split at hp
  · exact Option.noConfusion hp
  · dsimp only at hp
    split at hp
    · exact Option.noConfusion hp
    · exact Option.noConfusion hp
    · split at hp
      all_goals first
        | exact Option.noConfusion hp
        | (simp only [Option.some.injEq] at hp; subst hp; rfl)

/-- A WhatsApp hit always carries a non-empty database reference. -/
theorem whatsappTableLoop_ref (db : FoundFile) (f : String) (ts : List String)
    (h : AnalyzerHit) (hp : whatsappTableLoop db f ts = some h) :
    truthy h.database_reference = true := by
  induction ts with
  | nil => exact Option.noConfusion hp
  | cons table rest ih =>
    unfold whatsappTableLoop at hp
    split at hp
    · split at hp
      · dsimp only at hp
        split at hp
        · exact Option.noConfusion hp
        · exact ih hp
        · split at hp
          · simp only [Option.some.injEq] at hp
            subst hp
            rfl
          · exact Option.noConfusion hp
      · dsimp only at hp
        split at hp
        · exact Option.noConfusion hp
        · exact ih hp
        · simp only [Option.some.injEq] at hp
          subst hp
          rfl
    · exact ih hp

/-- A Telegram hit always carries a non-empty database reference. -/
theorem telegramTableLoop_ref (db : FoundFile) (f : String) (ts : List String)
    (h : AnalyzerHit) (hp : telegramTableLoop db f ts = some h) :
    truthy h.database_reference = true := by
  induction ts with
  | nil => exact Option.noConfusion hp
  | cons table rest ih =>
    unfold telegramTableLoop at hp
    split at hp
    · split at hp
      · exact ih hp
      · exact ih hp
      · simp only [Option.some.injEq] at hp
        subst hp
        rfl
    · exact ih hp

/-- A Signal hit always carries a non-empty database reference. -/
theorem signalTableLoop_ref (db : FoundFile) (f : String) (ts : List String)
    (h : AnalyzerHit) (hp : signalTableLoop db f ts = some h) :
    truthy h.database_reference = true := by
  induction ts with
  | nil => exact Option.noConfusion hp
  | cons table rest ih =>
    unfold signalTableLoop at hp
    split at hp
    · split at hp
      · dsimp only at hp
        split at hp
        · exact ih hp
        · exact ih hp
        · split at hp
          · simp only [Option.some.injEq] at hp
            subst hp
            rfl
          · simp only [Option.some.injEq] at hp
            subst hp
            rfl
      · dsimp only at hp
        split at hp
        · exact ih hp
        · exact ih hp
        · split at hp
          · simp only [Option.some.injEq] at hp
            subst hp
            rfl
          · simp only [Option.some.injEq] at hp
            subst hp
            rfl
    · exact ih hp

/-- A Discord hit always carries a non-empty database reference. -/
theorem discordTableLoop_ref (db : FoundFile) (f : String) (ts : List String)
    (h : AnalyzerHit) (hp : discordTableLoop db f ts = some h) :
    truthy h.database_reference = true := by
  induction ts with
  | nil => exact Option.noConfusion hp
  | cons table rest ih =>
    unfold discordTableLoop at hp
    split at hp
    · split at hp
      · dsimp only at hp
        split at hp
        · exact ih hp
        · exact ih hp
        · split at hp
          · simp only [Option.some.injEq] at hp
            subst hp
            rfl
          · simp only [Option.some.injEq] at hp
            subst hp
            rfl
      · dsimp only at hp
        split at hp
        · exact ih hp
        · exact ih hp
        · split at hp
          · simp only [Option.some.injEq] at hp
            subst hp
            rfl
          · simp only [Option.some.injEq] at hp
            subst hp
            rfl
    · exact ih hp

/-- Every successful probe returns a context with a non-empty database
reference and a boost that is one of the two ids the source assigns. -/
theorem probeDb_some_inv (db : FoundFile) (f : String) (c : DbContext)
    (hp : probeDb db f = some c) :
    truthy c.database_reference = true
    ∧ (c.classification_boost = some "USER_CONTENT"
       ∨ c.classification_boost = some "COMMUNICATION_AUDIO") := by
  unfold probeDb at hp
  dsimp only at hp
  split at hp
  · rw [Option.map_eq_some'] at hp
    obtain ⟨h, hh, rfl⟩ := hp
    exact ⟨analyze_voice_memos_db_ref db f h hh, Or.inl rfl⟩
  · split at hp
    · rw [Option.map_eq_some'] at hp
      obtain ⟨h, hh, rfl⟩ := hp
      exact ⟨analyze_sms_db_ref db f h hh, Or.inr rfl⟩
    · split at hp
      · rw [Option.map_eq_some'] at hp
        obtain ⟨h, hh, rfl⟩ := hp
        exact ⟨whatsappTableLoop_ref db f _ h hh, Or.inr rfl⟩
      · split at hp
        · rw [Option.map_eq_some'] at hp
          obtain ⟨h, hh, rfl⟩ := hp
          exact ⟨telegramTableLoop_ref db f _ h hh, Or.inr rfl⟩
        · split at hp
          · rw [Option.map_eq_some'] at hp
            obtain ⟨h, hh, rfl⟩ := hp
            exact ⟨signalTableLoop_ref db f _ h hh, Or.inr rfl⟩
          · split at hp
            · rw [Option.map_eq_some'] at hp
              obtain ⟨h, hh, rfl⟩ := hp
              exact ⟨discordTableLoop_ref db f _ h hh, Or.inr rfl⟩
            · split at hp
              · rw [Option.map_eq_some'] at hp
                obtain ⟨h, hh, rfl⟩ := hp
                exact ⟨analyze_voicemail_db_ref db f h hh, Or.inr rfl⟩
              · exact Option.noConfusion hp

/-- The pool scan only returns contexts produced by a probe, so its
successful results satisfy the probe invariant. -/
theorem correlateLoop_some_inv (f : String) (l : List FoundFile) (c : DbContext)
    (hp : correlateLoop f l = some c) :
    truthy c.database_reference = true
    ∧ (c.classification_boost = some "USER_CONTENT"
       ∨ c.classification_boost = some "COMMUNICATION_AUDIO") := by
  induction l with
  | nil => exact Option.noConfusion hp
  | cons db rest ih =>
    cases hq : probeDb db f with
    | some c2 =>
      simp only [correlateLoop, hq, Option.some.injEq] at hp
      subst hp
      exact probeDb_some_inv db f c2 hq
    | none =>
      simp only [correlateLoop, hq] at hp
      exact ih hp

/-- Unfolding equation of the correlator. -/
theorem analyze_database_context_eq (pool : List FoundFile) (p : String) :
    analyze_database_context pool p
      = match correlateLoop (basename p) (pool.filter isDbFile) with
        | some c => c
        | none => defaultDbContext := rfl

/-- Invariant of the correlator result: no boost means the default
context was returned, and a boost comes with a non-empty reference and
one of the two boost ids of the signature table. -/
theorem analyze_database_context_inv (pool : List FoundFile) (p : String) :
    ((analyze_database_context pool p).classification_boost = none →
       analyze_database_context pool p = defaultDbContext)
    ∧ (∀ bc, (analyze_database_context pool p).classification_boost = some bc →
       truthy (analyze_database_context pool p).database_reference = true
       ∧ (bc = "USER_CONTENT" ∨ bc = "COMMUNICATION_AUDIO")) := by
  have heq := analyze_database_context_eq pool p
  cases hq : correlateLoop (basename p) (pool.filter isDbFile) with
  | none =>
    rw [hq] at heq
    constructor
    · intro _
      exact heq
    · intro bc hb
      rw [heq] at hb
      exact Option.noConfusion hb
  | some c =>
    rw [hq] at heq
    have hinv := correlateLoop_some_inv _ _ _ hq
    constructor
    · intro hb
      rw [heq] at hb
      rcases hinv.2 with h | h <;> rw [h] at hb <;> exact Option.noConfusion hb
    · intro bc hb
      rw [heq] at hb ⊢
      refine ⟨hinv.1, ?_⟩
      rcases hinv.2 with h | h <;> rw [h] at hb <;>
          simp only [Option.some.injEq] at hb <;> subst hb
      · exact Or.inl rfl
      · exact Or.inr rfl

/-- C6: when the correlator returns a context carrying a category boost,
the synthesized record carries the boosted category display name, tier
and score; when it returns no boost — in particular for an empty pool or
when no signature matches — the record keeps exactly the path-based
classification values and the method label Path-based. -/
theorem audio_c6_boost_overwrite (files_found : List FoundFile) (f : FoundFile) :
    (∀ bc info,
       (analyze_database_context files_found f.path).classification_boost = some bc →
       lookupCategory bc = some info →
       (mkRecord files_found f).audio_type = info.name
       ∧ (mkRecord files_found f).forensic_relevance = info.forensic_relevance
       ∧ (mkRecord files_found f).relevance_score = info.score)
    ∧ ((analyze_database_context files_found f.path).classification_boost = none →
       (mkRecord files_found f).audio_type = (classify_audio_file f.path f.size).1
       ∧ (mkRecord files_found f).functional_category = (classify_audio_file f.path f.size).2.1
       ∧ (mkRecord files_found f).forensic_relevance = (classify_audio_file f.path f.size).2.2.1
       ∧ (mkRecord files_found f).relevance_score = (classify_audio_file f.path f.size).2.2.2
       ∧ (mkRecord files_found f).classification_method = "Path-based") := by
  constructor
  · intro bc info hb hl
    have hinv := (analyze_database_context_inv files_found f.path).2 bc hb
    have htr := hinv.1
    have hbc : truthy bc = true := by
      rcases hinv.2 with h | h <;> subst h <;> rfl
    simp [mkRecord, applyBoost, htr, hb, hbc, hl]
  · intro hb
    have hdef := (analyze_database_context_inv files_found f.path).1 hb
    simp [mkRecord, hdef, defaultDbContext, truthy]

/-- The USER_CONTENT entry of the category table, for the C6 witness. -/
def ucInfo : CategoryInfo :=
  { name := "User Content", forensic_relevance := "HIGH", score := 3,
    patterns :=
      [ "*/Library/Sounds/ringtone_*",
        "*/Containers/Data/Application/*/Documents/*.m4a",
        "*/Containers/Data/Application/*/Documents/*.caf",
        "*/Containers/Data/Application/*/Documents/*.wav",
        "*/Containers/Data/Application/*/Documents/*.mp3",
        "*/Documents/Recordings/*" ] }

/-- Fixture candidate for the C6 witness. -/
def c6file : FoundFile :=
  { path := "a/b/40.m4a", size := 5, mtimeStr := "t", hashResult := "h6" }

/-- Witness for C6: a matching Voice Memos database boosts the record to
User Content with tier HIGH and score 3. -/
theorem audio_c6_boost_overwrite_witness :
    (analyze_database_context [vmFixtureDB] c6file.path).classification_boost
      = some "USER_CONTENT"
    ∧ (mkRecord [vmFixtureDB] c6file).audio_type = "User Content"
    ∧ (mkRecord [vmFixtureDB] c6file).forensic_relevance = "HIGH"
    ∧ (mkRecord [vmFixtureDB] c6file).relevance_score = 3 := by
  refine ⟨by decide, ?_, ?_, ?_⟩
  · exact ((audio_c6_boost_overwrite [vmFixtureDB] c6file).1 "USER_CONTENT" ucInfo
      (by decide) (by decide)).1
  · exact ((audio_c6_boost_overwrite [vmFixtureDB] c6file).1 "USER_CONTENT" ucInfo
      (by decide) (by decide)).2.1
  · exact ((audio_c6_boost_overwrite [vmFixtureDB] c6file).1 "USER_CONTENT" ucInfo
      (by decide) (by decide)).2.2

/-- Failure shapes of a database file of the pool: every expected table
missing, every query raising, or every query returning zero rows. -/
def probeFailureKinds (db : FoundFile) : Prop :=
  (∀ t, db.hasTable t = false)
  ∨ (∀ q ps, db.runQuery q ps = QueryOutcome.err)
  ∨ (∀ q ps, db.runQuery q ps = QueryOutcome.ok [])

/-- Voice Memos analysis fails on every failure shape. -/
theorem analyze_voice_memos_db_fails (db : FoundFile) (f : String)
    (hf : probeFailureKinds db) : analyze_voice_memos_db db f = none := by
  unfold analyze_voice_memos_db
  rcases hf with hT | hE | hO
  · simp [hT]
  · split
    · rfl
    · simp [hE]
  · split
    · rfl
    · simp [hO]

/-- SMS analysis fails on every failure shape. -/
theorem analyze_sms_db_fails (db : FoundFile) (f : String)
    (hf : probeFailureKinds db) : analyze_sms_db db f = none := by
  unfold analyze_sms_db
  rcases hf with hT | hE | hO
  · simp [hT]
  · split
    · rfl
    · simp [hE]
  · split
    · rfl
    · simp [hO]

/-- Voicemail analysis fails on every failure shape. -/
theorem analyze_voicemail_db_fails (db : FoundFile) (f : String)
    (hf : probeFailureKinds db) : analyze_voicemail_db db f = none := by
  unfold analyze_voicemail_db
  rcases hf with hT | hE | hO
  · simp [hT]
  · split
    · rfl
    · dsimp only
      simp [hE]
  · split
    · rfl
    · dsimp only
      simp [hO]

/-- The WhatsApp table scan fails on every failure shape. -/
theorem whatsappTableLoop_fails (db : FoundFile) (f : String)
    (hf : probeFailureKinds db) :
    ∀ ts, whatsappTableLoop db f ts = none := by
  intro ts
  induction ts with
  | nil => rfl
  | cons table rest ih =>
    rcases hf with hT | hE | hO
    · simp [whatsappTableLoop, hT, ih]
    · unfold whatsappTableLoop
      split
      · dsimp only
        simp [hE]
      · exact ih
    · unfold whatsappTableLoop
      split
      · dsimp only
        simp [hO, ih]
      · exact ih

/-- The Telegram table scan fails on every failure shape. -/
theorem telegramTableLoop_fails (db : FoundFile) (f : String)
    (hf : probeFailureKinds db) :
    ∀ ts, telegramTableLoop db f ts = none := by
  intro ts
  induction ts with
  | nil => rfl
  | cons table rest ih =>
    rcases hf with hT | hE | hO
    · simp [telegramTableLoop, hT, ih]
    · unfold telegramTableLoop
      split
      · simp [hE, ih]
      · exact ih
    · unfold telegramTableLoop
      split
      · simp [hO, ih]
      · exact ih

/-- The Signal table scan fails on every failure shape. -/
theorem signalTableLoop_fails (db : FoundFile) (f : String)
    (hf : probeFailureKinds db) :
    ∀ ts, signalTableLoop db f ts = none := by
  intro ts
  induction ts with
  | nil => rfl
  | cons table rest ih =>
    rcases hf with hT | hE | hO
    · simp [signalTableLoop, hT, ih]
    · unfold signalTableLoop
      split
      · dsimp only
        simp [hE, ih]
      · exact ih
    · unfold signalTableLoop
      split
      · dsimp only
        simp [hO, ih]
      · exact ih

/-- The Discord table scan fails on every failure shape. -/
theorem discordTableLoop_fails (db : FoundFile) (f : String)
    (hf : probeFailureKinds db) :
    ∀ ts, discordTableLoop db f ts = none := by
  intro ts
  induction ts with
  | nil => rfl
  | cons table rest ih =>
    rcases hf with hT | hE | hO
    · simp [discordTableLoop, hT, ih]
    · unfold discordTableLoop
      split
      · dsimp only
        simp [hE, ih]
      · exact ih
    · unfold discordTableLoop
      split
      · dsimp only
        simp [hO, ih]
      · exact ih

/-- Every probe of a database with one of the failure shapes is a
no-match. -/
theorem probeDb_fails (db : FoundFile) (f : String)
    (hf : probeFailureKinds db) : probeDb db f = none := by
  unfold probeDb
  dsimp only
  split
  · simp [analyze_voice_memos_db_fails db f hf]
  · split
    · simp [analyze_sms_db_fails db f hf]
    · split
      · simp [analyze_whatsapp_db, whatsappTableLoop_fails db f hf]
      · split
        · simp [analyze_telegram_db, telegramTableLoop_fails db f hf]
        · split
          · simp [analyze_signal_db, signalTableLoop_fails db f hf]
          · split
            · simp [analyze_discord_db, discordTableLoop_fails db f hf]
            · split
              · simp [analyze_voicemail_db_fails db f hf]
              · rfl

/-- C7: a missing expected table, a raised query, or zero matching rows
make a probe a no-match; a no-match probe makes the pool loop continue
with the remaining databases, never surfacing an exception (the model
functions are total); and a pool in which every database fails leaves
the correlator at the empty default context, so the caller keeps the
path-based classification. -/
theorem audio_c7_failures_recovered :
    (∀ db f, probeFailureKinds db → probeDb db f = none)
    ∧ (∀ db pool p, probeDb db (basename p) = none →
        analyze_database_context (db :: pool) p = analyze_database_context pool p)
    ∧ (∀ pool p, (∀ db ∈ pool, probeFailureKinds db) →
        analyze_database_context pool p = defaultDbContext) := by
  refine ⟨fun db f hf => probeDb_fails db f hf, ?_, ?_⟩
  · intro db pool p hn
    by_cases hd : isDbFile db
    · rw [analyze_database_context_cons, if_pos hd, hn]
    · rw [analyze_database_context_cons, if_neg hd]
  · intro pool p
    induction pool with
    | nil =>
      intro _
      rfl
    | cons db rest ih =>
      intro hall
      have hn : probeDb db (basename p) = none :=
        probeDb_fails db (basename p) (hall db (List.mem_cons_self db rest))
      by_cases hd : isDbFile db
      · rw [analyze_database_context_cons, if_pos hd, hn]
        exact ih (fun d hdm => hall d (List.mem_cons_of_mem db hdm))
      · rw [analyze_database_context_cons, if_neg hd]
        exact ih (fun d hdm => hall d (List.mem_cons_of_mem db hdm))

/-- Fixture for the C7 witness: a carved database file with no readable
tables. -/
def deadDB : FoundFile := { path := "x/corrupt.db" }

/-- Witness for C7: a pool holding only the corrupt database yields the
default context. -/
theorem audio_c7_failures_recovered_witness :
    analyze_database_context [deadDB] "a/b/40.m4a" = defaultDbContext := by
  apply audio_c7_failures_recovered.2.2 [deadDB] "a/b/40.m4a"
  intro db hdb
  rw [List.mem_singleton] at hdb
  subst hdb
  exact Or.inl (fun t => rfl)

/-- Unfolding equation of the flag view at a cons cell. -/
theorem processFlags_cons (f : FoundFile) (rest : List FoundFile)
    (seen : List String) :
    processFlags (f :: rest) seen
      = if f.onDisk then
          (if truthy (calculate_file_hash f)
              && seen.contains (calculate_file_hash f) then
            false :: processFlags rest seen
          else
            true :: processFlags rest
              (if truthy (calculate_file_hash f) then
                calculate_file_hash f :: seen
              else seen))
        else false :: processFlags rest seen := rfl

/-- Unfolding equation of the processing loop at a cons cell. -/
theorem processLoop_cons (files_found : List FoundFile) (f : FoundFile)
    (rest : List FoundFile) (seen : List String) :
    processLoop files_found (f :: rest) seen
      = if f.onDisk then
          (if truthy (calculate_file_hash f)
              && seen.contains (calculate_file_hash f) then
            processLoop files_found rest seen
          else
            mkRecord files_found f ::
              processLoop files_found rest
                (if truthy (calculate_file_hash f) then
                  calculate_file_hash f :: seen
                else seen))
        else processLoop files_found rest seen := rfl

/-- The records of the processing loop are exactly the candidates whose
flag is true, each synthesized by `mkRecord`. -/
theorem processLoop_eq_emitted (files_found : List FoundFile) :
    ∀ (cs : List FoundFile) (seen : List String),
    processLoop files_found cs seen = emittedRecords files_found cs (processFlags cs seen) := by
  intro cs
  induction cs with
  | nil => intro seen; rfl
  | cons f rest ih =>
    intro seen
    rw [processLoop_cons, processFlags_cons]
    split_ifs with h1 h2 h3 <;>
      simp [emittedRecords, List.zip_cons_cons, List.filterMap_cons, ih]

/-- Membership gives a true contains test. -/
theorem contains_of_mem (l : List String) (a : String) (h : a ∈ l) :
    l.contains a = true :=
  List.elem_iff.mpr h

/-- Non-membership gives a false contains test. -/
theorem contains_of_not_mem (l : List String) (a : String) (h : a ∉ l) :
    l.contains a = false := by
  cases hb : l.contains a with
  | false => rfl
  | true => exact absurd (List.elem_iff.mp hb) h

/-- Once a non-empty hash is in the seen set, every later existing
candidate carrying that hash gets a false flag. -/
theorem flags_skip :
    ∀ (cs : List FoundFile) (seen : List String) (h : String) (j : Nat)
      (hj : j < cs.length),
    h ≠ "" → h ∈ seen → (cs.get ⟨j, hj⟩).onDisk = true →
    (cs.get ⟨j, hj⟩).hashResult = h →
    (processFlags cs seen).getD j false = false := by
  intro cs
  induction cs with
  | nil =>
    intro seen h j hj
    exact absurd hj (Nat.not_lt_zero j)
  | cons f rest ih =>
    intro seen h j hj hne hmem hd hh
    rw [processFlags_cons]
    cases j with
    | zero =>
      have hd2 : f.onDisk = true := hd
      have hh2 : f.hashResult = h := hh
      have ht : truthy (calculate_file_hash f) = true := by
        simp [calculate_file_hash, truthy, hh2, hne]
      have hc : seen.contains (calculate_file_hash f) = true := by
        rw [calculate_file_hash, hh2]
        exact contains_of_mem seen h hmem
      rw [if_pos hd2, if_pos (by rw [ht, hc]; rfl)]
      rfl
    | succ j2 =>
      have hj2 : j2 < rest.length := Nat.lt_of_succ_lt_succ hj
      have hd2 : (rest.get ⟨j2, hj2⟩).onDisk = true := hd
      have hh2 : (rest.get ⟨j2, hj2⟩).hashResult = h := hh
      split_ifs with h1 h2 h3
      · simpa using ih seen h j2 hj2 hne hmem hd2 hh2
      · simpa using ih _ h j2 hj2 hne (List.mem_cons_of_mem _ hmem) hd2 hh2
      · simpa using ih seen h j2 hj2 hne hmem hd2 hh2
      · simpa using ih seen h j2 hj2 hne hmem hd2 hh2

/-- Core dedup property of the loop: the first existing candidate whose
non-empty hash is fresh gets a true flag, and every later existing
candidate with the same hash gets a false flag. -/
theorem flags_first :
    ∀ (cs : List FoundFile) (seen : List String) (i : Nat) (hi : i < cs.length),
    (cs.get ⟨i, hi⟩).onDisk = true →
    (cs.get ⟨i, hi⟩).hashResult ≠ "" →
    (cs.get ⟨i, hi⟩).hashResult ∉ seen →
    (∀ k (hk : k < cs.length), k < i →
        ¬((cs.get ⟨k, hk⟩).onDisk = true
          ∧ (cs.get ⟨k, hk⟩).hashResult = (cs.get ⟨i, hi⟩).hashResult)) →
    (processFlags cs seen).getD i false = true
    ∧ (∀ j (hj : j < cs.length), i < j → (cs.get ⟨j, hj⟩).onDisk = true →
        (cs.get ⟨j, hj⟩).hashResult = (cs.get ⟨i, hi⟩).hashResult →
        (processFlags cs seen).getD j false = false) := by
  intro cs
  induction cs with
  | nil =>
    intro seen i hi
    exact absurd hi (Nat.not_lt_zero i)
  | cons f rest ih =>
    intro seen i hi hd hne hnm hfirst
    rw [processFlags_cons]
    cases i with
    | zero =>
      have hd2 : f.onDisk = true := hd
      have hne2 : f.hashResult ≠ "" := hne
      have hnm2 : f.hashResult ∉ seen := hnm
      have ht : truthy (calculate_file_hash f) = true := by
        simp [calculate_file_hash, truthy, hne2]
      have hc : seen.contains (calculate_file_hash f) = false :=
        contains_of_not_mem seen f.hashResult hnm2
      have hcond : (truthy (calculate_file_hash f)
          && seen.contains (calculate_file_hash f)) = false := by
        rw [ht, hc]
        rfl
      rw [if_pos hd2,
        if_neg (by intro hx; rw [hcond] at hx; exact Bool.false_ne_true hx),
        if_pos ht]
      constructor
      · rfl
      · intro j hj hij hdj hhj
        cases j with
        | zero => exact absurd hij (Nat.lt_irrefl 0)
        | succ j2 =>
          have hj2 : j2 < rest.length := Nat.lt_of_succ_lt_succ hj
          have hdj2 : (rest.get ⟨j2, hj2⟩).onDisk = true := hdj
          have hhj2 : (rest.get ⟨j2, hj2⟩).hashResult = f.hashResult := hhj
          simpa using flags_skip rest (calculate_file_hash f :: seen) f.hashResult
            j2 hj2 hne2 (List.mem_cons_self _ _) hdj2 hhj2
    | succ i2 =>
      have hi2 : i2 < rest.length := Nat.lt_of_succ_lt_succ hi
      have hd2 : (rest.get ⟨i2, hi2⟩).onDisk = true := hd
      have hne2 : (rest.get ⟨i2, hi2⟩).hashResult ≠ "" := hne
      have hnm2 : (rest.get ⟨i2, hi2⟩).hashResult ∉ seen := hnm
      have hnot : ¬(f.onDisk = true
          ∧ f.hashResult = (rest.get ⟨i2, hi2⟩).hashResult) :=
        hfirst 0 (Nat.succ_pos _) (Nat.succ_pos i2)
      have hfirst2 : ∀ k (hk : k < rest.length), k < i2 →
          ¬((rest.get ⟨k, hk⟩).onDisk = true
            ∧ (rest.get ⟨k, hk⟩).hashResult = (rest.get ⟨i2, hi2⟩).hashResult) :=
        fun k hk hki => hfirst (k + 1) (Nat.succ_lt_succ hk) (Nat.succ_lt_succ hki)
      split_ifs with h1 h2 h3
      · -- existing duplicate head: skipped, seen unchanged
        have hrec := ih seen i2 hi2 hd2 hne2 hnm2 hfirst2
        constructor
        · simpa using hrec.1
        · intro j hj hij hdj hhj
          cases j with
          | zero => exact absurd hij (Nat.not_lt_zero _)
          | succ j2 =>
            have hj2 : j2 < rest.length := Nat.lt_of_succ_lt_succ hj
            simpa using hrec.2 j2 hj2 (Nat.lt_of_succ_lt_succ hij) hdj hhj
      · -- head produces a record with a truthy hash: its hash differs
        have hfh : f.hashResult ≠ (rest.get ⟨i2, hi2⟩).hashResult :=
          fun he => hnot ⟨h1, he⟩
        have hnm3 : (rest.get ⟨i2, hi2⟩).hashResult ∉ calculate_file_hash f :: seen := by
          intro hmem
          rcases List.mem_cons.mp hmem with he | hm
          · exact hfh he.symm
          · exact hnm2 hm
        have hrec := ih _ i2 hi2 hd2 hne2 hnm3 hfirst2
        constructor
        · simpa using hrec.1
        · intro j hj hij hdj hhj
          cases j with
          | zero => exact absurd hij (Nat.not_lt_zero _)
          | succ j2 =>
            have hj2 : j2 < rest.length := Nat.lt_of_succ_lt_succ hj
            simpa using hrec.2 j2 hj2 (Nat.lt_of_succ_lt_succ hij) hdj hhj
      · -- head produces a record with an empty hash: seen unchanged
        have hrec := ih seen i2 hi2 hd2 hne2 hnm2 hfirst2
        constructor
        · simpa using hrec.1
        · intro j hj hij hdj hhj
          cases j with
          | zero => exact absurd hij (Nat.not_lt_zero _)
          | succ j2 =>
            have hj2 : j2 < rest.length := Nat.lt_of_succ_lt_succ hj
            simpa using hrec.2 j2 hj2 (Nat.lt_of_succ_lt_succ hij) hdj hhj
      · -- head not on disk: skipped, seen unchanged
        have hrec := ih seen i2 hi2 hd2 hne2 hnm2 hfirst2
        constructor
        · simpa using hrec.1
        · intro j hj hij hdj hhj
          cases j with
          | zero => exact absurd hij (Nat.not_lt_zero _)
          | succ j2 =>
            have hj2 : j2 < rest.length := Nat.lt_of_succ_lt_succ hj
            simpa using hrec.2 j2 hj2 (Nat.lt_of_succ_lt_succ hij) hdj hhj

/-- The audio-extension filter applied to the found files, the list the
processing loop walks in discovery order. -/
def audioCandidates (files_found : List FoundFile) : List FoundFile :=
  files_found.filter (fun f => isAudioFile f.path)

/-- C2: in a run over the found files, when two audio candidates carry
the same non-empty content hash (identical readable byte content always
yields the identical non-empty SHA-256 digest) and the earlier one is
the first such candidate, the earlier candidate produces a record (true
flag) and the later one is skipped silently (false flag, hence no
record and no error, the loop being total); the record list of the run
is exactly the candidates with a true flag. -/
theorem audio_c2_dedup_first_wins (ff : List FoundFile) (i j : Nat)
    (hi : i < (audioCandidates ff).length) (hj : j < (audioCandidates ff).length)
    (hij : i < j)
    (hdi : ((audioCandidates ff).get ⟨i, hi⟩).onDisk = true)
    (hdj : ((audioCandidates ff).get ⟨j, hj⟩).onDisk = true)
    (hne : calculate_file_hash ((audioCandidates ff).get ⟨i, hi⟩) ≠ "")
    (hsame : calculate_file_hash ((audioCandidates ff).get ⟨j, hj⟩)
      = calculate_file_hash ((audioCandidates ff).get ⟨i, hi⟩))
    (hfirst : ∀ k (hk : k < (audioCandidates ff).length), k < i →
        ¬(((audioCandidates ff).get ⟨k, hk⟩).onDisk = true
          ∧ ((audioCandidates ff).get ⟨k, hk⟩).hashResult
            = ((audioCandidates ff).get ⟨i, hi⟩).hashResult)) :
    (processFlags (audioCandidates ff) []).getD i false = true
    ∧ (processFlags (audioCandidates ff) []).getD j false = false
    ∧ allUserAudio ff
        = emittedRecords ff (audioCandidates ff) (processFlags (audioCandidates ff) []) := by
  have hmain := flags_first (audioCandidates ff) [] i hi hdi hne
    (List.not_mem_nil _) hfirst
  exact ⟨hmain.1, hmain.2 j hj hij hdj hsame,
    processLoop_eq_emitted ff (audioCandidates ff) []⟩

/-- Fixture for the C2 witness: first copy of the content. -/
def dupFileA : FoundFile := { path := "/Documents/rec1.caf", hashResult := "deadbeef" }

/-- Fixture for the C2 witness: second path with identical content. -/
def dupFileB : FoundFile :=
  { path := "/Documents/Recordings/rec1_copy.caf", hashResult := "deadbeef" }

/-- Witness for C2: two files with the same digest under different
paths; the first is flagged for a record, the second is skipped. -/
theorem audio_c2_dedup_first_wins_witness :
    (processFlags (audioCandidates [dupFileA, dupFileB]) []).getD 0 false = true
    ∧ (processFlags (audioCandidates [dupFileA, dupFileB]) []).getD 1 false = false
    ∧ allUserAudio [dupFileA, dupFileB]
        = emittedRecords [dupFileA, dupFileB] (audioCandidates [dupFileA, dupFileB])
            (processFlags (audioCandidates [dupFileA, dupFileB]) []) :=
  audio_c2_dedup_first_wins [dupFileA, dupFileB] 0 1 (by decide) (by decide) (by decide)
    (by decide) (by decide) (by decide) (by decide)
    (fun k hk hk0 => absurd hk0 (Nat.not_lt_zero k))
